import Mathlib

/-!
A verification development for the TelegramThingie session-routing engine.

The Python sources are shallowly embedded as executable Lean functions:

* `SessionRec` / `MessageRec` / `Storage` model the persisted rows
  (src/src/db/models.py is not in the snapshot; the record layout is
  modelled from the spec's data-model section and from how the fields are
  used in src/src/services/session_service.py).
* `ServiceState` is a `SessionService` instance: the storage plus the
  process-local routing cache `active_sessions`.
* The service methods of src/src/services/session_service.py become pure
  state-passing functions.  SQLAlchemy's `scalar_one_or_none()` is embedded
  as `scalar_one_or_none`, which errors (raises `MultipleResultsFound`)
  when the underlying query yields more than one row.
* The dispatcher flows of src/src/channels/telegram/bot.py become functions
  that additionally thread a list of provider outcomes (one per Telegram
  API call) and return the trace of provider sends; a raw
  `TelegramClient.send_message` call that fails is an `Except.error`
  (the Python exception propagating), while the `TelegramBot.send_message`
  wrapper catches the failure and records it.
* `do_POST` embeds the webhook ingress handler of src/app/webhook_server.py.

Timestamps are modelled as a `Nat` tick carried in `Storage.now`.
-/

namespace TelegramThingie

/-- Snapshot of a message as stored into the transcript JSON columns by
`close_session` (text, sender, created_at). -/
structure MsgSnapshot where
  text : String
  sender : Option String
  created_at : Nat
deriving DecidableEq

/-- Modelled from the spec: the Session row (src/src/db/models.py is missing
from the snapshot).  Fields follow spec section 3 and the accesses made by
src/src/services/session_service.py: surrogate `session_id`, `bot_id`,
`chat_id`, nullable `manager_id`, `status` in waiting / active / closed,
timestamps, and the two transcript snapshot columns `messages_client`
(client transcript) and `messages_ai` (manager transcript). -/
structure SessionRec where
  session_id : Nat
  bot_id : String
  chat_id : String
  manager_id : Option String
  status : String
  created_at : Nat
  updated_at : Nat
  messages_client : List MsgSnapshot
  messages_ai : List MsgSnapshot
deriving DecidableEq

/-- Modelled from the spec: the Message row (src/src/db/models.py is missing
from the snapshot).  Fields follow spec section 3 and the constructor call in
`SessionService.add_message_to_session`. -/
structure MessageRec where
  message_id : Nat
  session_id : Nat
  message_type : String
  sender : Option String
  text : String
  telegram_message_id : Option String
  status : String
  error_message : Option String
  created_at : Nat
deriving DecidableEq

/-- The persistent store: session and message tables, the autoincrement
counters, and the current clock reading used for created_at / updated_at. -/
structure Storage where
  sessions : List SessionRec
  messages : List MessageRec
  next_session_id : Nat
  next_message_id : Nat
  now : Nat
deriving DecidableEq

/-- A `SessionService` instance: the storage plus the process-local routing
cache `active_sessions` mapping (bot_id, chat_id) to a session id.  The cache
is a list of key-value pairs looked up front-to-back, with insertion by
consing (newest binding wins), matching a Python dict update. -/
structure ServiceState where
  db : Storage
  active_sessions : List ((String × String) × Nat)
deriving DecidableEq

/-- SQLAlchemy `Result.scalar_one_or_none()`: `none` on an empty result,
the row on a singleton result, and an exception (`MultipleResultsFound`)
when the query produced more than one row. -/
def scalar_one_or_none {α : Type} : List α → Except String (Option α)
  | [] => .ok none
  | [a] => .ok (some a)
  | _ => .error "MultipleResultsFound"

/-- Cache lookup: Python `cache_key in self.active_sessions` plus the
subsequent indexing. -/
def cacheLookup (cache : List ((String × String) × Nat)) (bot chat : String) :
    Option Nat :=
  (cache.find? (fun p => p.1.1 == bot && p.1.2 == chat)).map (·.2)

/-- Row predicate for the open-session query of `get_or_create_session` and
`get_active_session_by_chat_id`: same bot and chat, status in
waiting / active. -/
def isOpenRow (bot chat : String) (s : SessionRec) : Bool :=
  s.bot_id == bot && s.chat_id == chat &&
    (s.status == "waiting" || s.status == "active")

namespace SessionService

/-- `SessionService.get_or_create_session`: return the cached id when the
routing cache has the key; otherwise query the single open session for the
pair (waiting or active), creating a fresh `waiting` session when none
exists, and populate the cache. -/
def get_or_create_session (st : ServiceState) (bot chat : String) :
    Except String (Nat × ServiceState) :=
  match cacheLookup st.active_sessions bot chat with
  | some sid => .ok (sid, st)
  | none =>
    match scalar_one_or_none (st.db.sessions.filter (isOpenRow bot chat)) with
    | .error e => .error e
    | .ok (some s) =>
      .ok (s.session_id,
        { st with active_sessions := ((bot, chat), s.session_id) :: st.active_sessions })
    | .ok none =>
      let sid := st.db.next_session_id
      let ns : SessionRec :=
        { session_id := sid, bot_id := bot, chat_id := chat, manager_id := none,
          status := "waiting", created_at := st.db.now, updated_at := st.db.now,
          messages_client := [], messages_ai := [] }
      let db' := { st.db with
        sessions := st.db.sessions ++ [ns],
        next_session_id := sid + 1 }
      .ok (sid,
        { db := db',
          active_sessions := ((bot, chat), sid) :: st.active_sessions })

/-- `SessionService.get_active_session_by_chat_id`: the single session for
the pair with status waiting or active (despite the name it also returns
waiting sessions). -/
def get_active_session_by_chat_id (st : ServiceState) (bot chat : String) :
    Except String (Option SessionRec) :=
  scalar_one_or_none (st.db.sessions.filter (isOpenRow bot chat))

/-- `SessionService.get_active_session_by_manager_id`: the single session
with this bot and manager and status active. -/
def get_active_session_by_manager_id (st : ServiceState) (bot mgr : String) :
    Except String (Option SessionRec) :=
  scalar_one_or_none (st.db.sessions.filter
    (fun s => s.bot_id == bot && s.manager_id == some mgr && s.status == "active"))

/-- `SessionService.get_free_managers`: the candidates that have no active
session for the bot (empty candidate list short-circuits to empty). -/
def get_free_managers (st : ServiceState) (bot : String)
    (manager_ids : List String) : List String :=
  if manager_ids.isEmpty then []
  else
    manager_ids.filter (fun m =>
      !(st.db.sessions.any (fun s =>
        s.bot_id == bot && s.status == "active" && s.manager_id == some m)))

/-- `SessionService.get_next_waiting_session`: query all waiting sessions of
the bot ordered by created_at ascending, then `scalar_one_or_none()`.  The
ordering does not affect the result because `scalar_one_or_none` errors on
more than one row.  The waiting rows are kept in table order here; sorting by
created_at would not change which branch of `scalar_one_or_none` is taken. -/
def get_next_waiting_session (st : ServiceState) (bot : String) :
    Except String (Option SessionRec) :=
  scalar_one_or_none (st.db.sessions.filter
    (fun s => s.bot_id == bot && s.status == "waiting"))

/-- `SessionService.accept_session`: select the session by primary key; when
it exists and is waiting, set status active, bind manager_id, bump
updated_at, and return true; otherwise return false without changes. -/
def accept_session (st : ServiceState) (sid : Nat) (mgr : String) :
    Bool × ServiceState :=
  match st.db.sessions.find? (fun s => s.session_id == sid) with
  | some s =>
    if s.status == "waiting" then
      let upd := fun (t : SessionRec) =>
        if t.session_id == sid then
          { t with
            status := "active",
            manager_id := some mgr,
            updated_at := st.db.now }
        else t
      (true, { st with db := { st.db with sessions := st.db.sessions.map upd } })
    else (false, st)
  | none => (false, st)

/-- Conversion of a Message row to the snapshot dict built inside
`close_session`. -/
def toSnapshot (m : MessageRec) : MsgSnapshot :=
  { text := m.text, sender := m.sender, created_at := m.created_at }

/-- `SessionService.close_session`: select the session (with its messages)
by primary key; when active, partition its messages into the client snapshot
(message_type incoming) and the manager snapshot (any other message_type),
set status closed, bump updated_at, drop the routing-cache entry for the
session's (bot_id, chat_id) key, and return true; otherwise return false
without changes. -/
def close_session (st : ServiceState) (sid : Nat) : Bool × ServiceState :=
  match st.db.sessions.find? (fun s => s.session_id == sid) with
  | some s =>
    if s.status == "active" then
      let msgs := st.db.messages.filter (fun m => m.session_id == sid)
      let client_msgs := (msgs.filter (fun m => m.message_type == "incoming")).map toSnapshot
      let manager_msgs := (msgs.filter (fun m => !(m.message_type == "incoming"))).map toSnapshot
      let upd := fun (t : SessionRec) =>
        if t.session_id == sid then
          { t with
            messages_client := client_msgs,
            messages_ai := manager_msgs,
            status := "closed",
            updated_at := st.db.now }
        else t
      (true,
        { db := { st.db with sessions := st.db.sessions.map upd },
          active_sessions := st.active_sessions.filter (fun p =>
            !(p.1.1 == s.bot_id && p.1.2 == s.chat_id)) })
    else (false, st)
  | none => (false, st)

/-- `SessionService.add_message_to_session`: insert one Message row and bump
the owning session's updated_at when the session exists; returns the new
message id. -/
def add_message_to_session (st : ServiceState) (sid : Nat) (text : String)
    (message_type : String) (sender : Option String)
    (telegram_message_id : Option String) (status : String)
    (error_message : Option String) : Nat × ServiceState :=
  let mid := st.db.next_message_id
  let m : MessageRec :=
    { message_id := mid, session_id := sid, message_type := message_type,
      sender := sender, text := text, telegram_message_id := telegram_message_id,
      status := status, error_message := error_message, created_at := st.db.now }
  let db' := { st.db with
    messages := st.db.messages ++ [m],
    next_message_id := mid + 1,
    sessions := st.db.sessions.map (fun t =>
      if t.session_id == sid then { t with updated_at := st.db.now } else t) }
  (mid, { st with db := db' })

end SessionService

/-! Dispatcher layer: src/src/channels/telegram/bot.py.  Each Telegram API
call is driven by a `ProviderOutcome` drawn from an outcome list; a raw
`TelegramClient.send_message` call surfaces a failure as `Except.error`
(`httpx` exception propagating), while the `TelegramBot.send_message`
wrapper catches it and records a failed Message row. -/

/-- Result of one provider (Telegram API) call. -/
inductive ProviderOutcome where
  | success (telegram_message_id : String)
  | httpError (code : Nat) (body : String)
  | transportError (desc : String)
deriving DecidableEq

/-- The error string the wrapper stores: the httpx.HTTPStatusError branch
formats code and body, the generic branch stringifies the exception. -/
def providerFailureText : ProviderOutcome → Option String
  | .success _ => none
  | .httpError code body => some ("HTTP error: " ++ toString code ++ " - " ++ body)
  | .transportError desc => some desc

/-- Reply markup attached to an outbound send. -/
inductive Markup where
  | acceptButton (sid : Nat)
  | closeReplyKeyboard
  | removeKeyboard
deriving DecidableEq

/-- One attempted provider send: recipient chat, text, optional markup. -/
structure SendRec where
  recipient : String
  text : String
  markup : Option Markup
deriving DecidableEq

/-- Raw `TelegramClient.send_message`: returns the provider message id on
success and raises (`Except.error`) on an HTTP or transport failure. -/
def clientSend : ProviderOutcome → Except String String
  | .success tmid => .ok tmid
  | .httpError code body => .error ("HTTP error: " ++ toString code ++ " - " ++ body)
  | .transportError desc => .error desc

/-- Draw the outcome for the next provider call (defaults to success when
the supplied list is exhausted). -/
def popOutcome : List ProviderOutcome → ProviderOutcome × List ProviderOutcome
  | [] => (.success "", [])
  | o :: rest => (o, rest)

/-- A `TelegramBot`: its bot identity and configured manager ids. -/
structure TelegramBot where
  bot_id : String
  manager_ids : List String
deriving DecidableEq

/-- The result dict built by `TelegramBot.send_message`. -/
structure SendResult where
  status : String
  error : Option String
  session_id : Nat
  message_id : Option Nat
deriving DecidableEq

namespace TelegramBot

/-- Body of `TelegramBot.send_message` once the session id is resolved: try
the provider call; on success record a success Message row with the provider
message id, on failure catch the exception and record a failed Message row
carrying the error text.  The recorded text is `db_text or message`
(Python truthiness: an empty `db_text` falls back to `message`).  Exactly
one Message row is inserted and no exception escapes. -/
def send_message_resolved (st : ServiceState) (sid : Nat)
    (chat_id message : String) (reply_markup : Option Markup) (sender : String)
    (db_text : Option String) (outcome : ProviderOutcome) :
    SendResult × ServiceState × List SendRec :=
  let recordedText :=
    match db_text with
    | some t => if t == "" then message else t
    | none => message
  let trace : List SendRec := [⟨chat_id, message, reply_markup⟩]
  match outcome with
  | .success tmid =>
    let (mid, st') := SessionService.add_message_to_session st sid recordedText
      "outgoing" (some sender) (some tmid) "success" none
    ({ status := "success", error := none, session_id := sid,
       message_id := some mid }, st', trace)
  | o =>
    let err := (providerFailureText o).getD ""
    let (mid, st') := SessionService.add_message_to_session st sid recordedText
      "outgoing" (some sender) none "failed" (some err)
    ({ status := "failed", error := some err, session_id := sid,
       message_id := some mid }, st', trace)

/-- `TelegramBot.send_message`: resolve the session id when not supplied
(open session for the chat, else `get_or_create_session`), then do the
guarded provider call and record exactly one Message row. -/
def send_message (bot : TelegramBot) (st : ServiceState)
    (chat_id message : String) (session_id : Option Nat)
    (reply_markup : Option Markup) (sender : String) (db_text : Option String)
    (outcome : ProviderOutcome) :
    Except String (SendResult × ServiceState × List SendRec) :=
  match session_id with
  | some sid =>
    .ok (send_message_resolved st sid chat_id message reply_markup sender db_text outcome)
  | none =>
    match SessionService.get_active_session_by_chat_id st bot.bot_id chat_id with
    | .error e => .error e
    | .ok (some s) =>
      .ok (send_message_resolved st s.session_id chat_id message reply_markup sender db_text outcome)
    | .ok none =>
      match SessionService.get_or_create_session st bot.bot_id chat_id with
      | .error e => .error e
      | .ok (sid, st1) =>
        .ok (send_message_resolved st1 sid chat_id message reply_markup sender db_text outcome)

/-- `TelegramBot._close_manager_session`: look up the manager's active
session; with none, tell the manager so; otherwise close the session, then
confirm to the manager and notify the client through raw client sends (no
Message rows, failures propagate), and finally offer the next waiting
session when one exists. -/
def close_manager_session (bot : TelegramBot) (st : ServiceState)
    (user_id : String) (outs : List ProviderOutcome) :
    Except String (ServiceState × List SendRec) :=
  match SessionService.get_active_session_by_manager_id st bot.bot_id user_id with
  | .error e => .error e
  | .ok none =>
    let (o, _) := popOutcome outs
    match clientSend o with
    | .error e => .error e
    | .ok _ => .ok (st, [⟨user_id, "У вас нет активных сессий.", none⟩])
  | .ok (some s) =>
    let (_, st1) := SessionService.close_session st s.session_id
    let (o1, outs1) := popOutcome outs
    match clientSend o1 with
    | .error e => .error e
    | .ok _ =>
      let t1 : SendRec := ⟨user_id, "Сессия закрыта.", some .removeKeyboard⟩
      let (o2, outs2) := popOutcome outs1
      match clientSend o2 with
      | .error e => .error e
      | .ok _ =>
        let t2 : SendRec := ⟨s.chat_id, "Сессия завершена менеджером.", none⟩
        match SessionService.get_next_waiting_session st1 bot.bot_id with
        | .error e => .error e
        | .ok none => .ok (st1, [t1, t2])
        | .ok (some ns) =>
          let (o3, _) := popOutcome outs2
          match clientSend o3 with
          | .error e => .error e
          | .ok _ =>
            .ok (st1, [t1, t2,
              ⟨user_id, "В очереди есть клиент. Хотите принять?",
               some (.acceptButton ns.session_id)⟩])

/-- Per-update user info extracted in `handle_update` (absent Telegram
fields default to the empty string). -/
structure UserInfo where
  first_name : String
  last_name : String
  username : String
deriving DecidableEq

/-- `TelegramBot._handle_manager_message`: a close command delegates to the
close flow (after a swallowed delete_message attempt for the reply-keyboard
variant); otherwise, when the manager has an active session, forward the
text to the session's client chat as "[display name]: text" through
`send_message`, recording the original text with a sender tag derived from
the manager's username; with no active session, do nothing. -/
def handle_manager_message (bot : TelegramBot) (st : ServiceState)
    (user_id message_text : String) (info : UserInfo)
    (message_id : Option String) (outs : List ProviderOutcome) :
    Except String (ServiceState × List SendRec) :=
  if message_text == "/close" || message_text == "Завершить диалог" then
    let outs1 :=
      if message_text == "Завершить диалог" && message_id.isSome then
        (popOutcome outs).2
      else outs
    close_manager_session bot st user_id outs1
  else
    match SessionService.get_active_session_by_manager_id st bot.bot_id user_id with
    | .error e => .error e
    | .ok none => .ok (st, [])
    | .ok (some s) =>
      let display_name := if info.first_name == "" then "Manager" else info.first_name
      let formatted := "[" ++ display_name ++ "]: " ++ message_text
      let db_sender :=
        if info.username == "" then "bot-manager" else "bot-" ++ info.username
      let (o, _) := popOutcome outs
      let (_, st', tr) := send_message_resolved st s.session_id s.chat_id
        formatted none db_sender (some message_text) o
      .ok (st', tr)

/-- Continuation of `TelegramBot._handle_client_start` after the session is
resolved or created: compute the free managers, prompt a pseudo-randomly
chosen free manager with an accept button when the list is non-empty, and in
every case tell the client to wait for a manager with the same text.
`pickIdx` drives the `random.choice`. -/
def handle_client_start_opened (bot : TelegramBot) (sid : Nat)
    (st1 : ServiceState) (chat_id : String) (info : UserInfo) (pickIdx : Nat)
    (outs : List ProviderOutcome) :
    Except String (ServiceState × List SendRec) :=
  let free := SessionService.get_free_managers st1 bot.bot_id bot.manager_ids
  if free.isEmpty then
    let (o, _) := popOutcome outs
    let (_, st2, tr) := send_message_resolved st1 sid chat_id
      "Ожидайте менеджера..." none "bot" none o
    .ok (st2, tr)
  else
    let target := free.getD (pickIdx % free.length) ""
    let manager_text := "Есть новый клиент: " ++ info.first_name ++
      (if info.username == "" then "" else " (@" ++ info.username ++ ")")
    let (o1, outs1) := popOutcome outs
    match clientSend o1 with
    | .error e => .error e
    | .ok _ =>
      let tM : SendRec := ⟨target, manager_text, some (.acceptButton sid)⟩
      let (o2, _) := popOutcome outs1
      let (_, st2, tr) := send_message_resolved st1 sid chat_id
        "Ожидайте менеджера..." none "bot" none o2
      .ok (st2, tM :: tr)

/-- `TelegramBot._handle_client_start`: when the chat already has an open
session, re-confirm; otherwise open (or find) the session and continue with
`handle_client_start_opened`. -/
def handle_client_start (bot : TelegramBot) (st : ServiceState)
    (chat_id : String) (info : UserInfo) (pickIdx : Nat)
    (outs : List ProviderOutcome) :
    Except String (ServiceState × List SendRec) :=
  match SessionService.get_active_session_by_chat_id st bot.bot_id chat_id with
  | .error e => .error e
  | .ok (some s) =>
    let (o, _) := popOutcome outs
    let (_, st', tr) := send_message_resolved st s.session_id chat_id
      "Вы уже ожидаете менеджера или находитесь в активной сессии." none "bot" none o
    .ok (st', tr)
  | .ok none =>
    match SessionService.get_or_create_session st bot.bot_id chat_id with
    | .error e => .error e
    | .ok (sid, st1) =>
      handle_client_start_opened bot sid st1 chat_id info pickIdx outs

end TelegramBot

/-! Reachability by the public session operations. -/

/-- One public Session Router operation. -/
inductive Op where
  | getOrCreate (bot chat : String)
  | accept (sid : Nat) (mgr : String)
  | close (sid : Nat)
deriving DecidableEq

/-- Advance the clock by one tick between operations. -/
def tick (st : ServiceState) : ServiceState :=
  { st with db := { st.db with now := st.db.now + 1 } }

/-- Execute one public operation (a raised storage error leaves the state
as committed so far, which for these operations is unchanged). -/
def runOp (st : ServiceState) : Op → ServiceState
  | .getOrCreate b c =>
    match SessionService.get_or_create_session st b c with
    | .ok (_, st') => tick st'
    | .error _ => tick st
  | .accept sid m => tick (SessionService.accept_session st sid m).2
  | .close sid => tick (SessionService.close_session st sid).2

/-- Execute a sequence of public operations. -/
def runOps (st : ServiceState) (ops : List Op) : ServiceState :=
  ops.foldl runOp st

/-- The cold-start state: empty tables, empty routing cache. -/
def initState : ServiceState :=
  { db := { sessions := [], messages := [], next_session_id := 1,
            next_message_id := 1, now := 0 },
    active_sessions := [] }

/-- Number of sessions with status active bound to the manager for the bot. -/
def countActiveFor (st : ServiceState) (bot mgr : String) : Nat :=
  (st.db.sessions.filter (fun s =>
    s.bot_id == bot && s.manager_id == some mgr && s.status == "active")).length

/-! Webhook ingress: src/app/webhook_server.py and src/app/bot_config.py. -/

/-- A registered webhook route: handler identity and optional shared
secret. -/
structure Route where
  handler_id : Nat
  secret_token : Option String
deriving DecidableEq

/-- Python truthiness of the route's secret: present and non-empty. -/
def secretTruthy : Option String → Bool
  | none => false
  | some s => !(s == "")

/-- `Handler.do_POST`: look up the path (404 when absent); when the route's
secret is truthy, compare it with the X-Telegram-Bot-Api-Secret-Token header
(401 on mismatch); parse the body (`none` models a JSON decode failure, 400);
otherwise schedule the handler on the shared loop and answer 200.  The
response is computed without consulting the handler's outcome, which the
unused `_hres` argument records. -/
def do_POST (routes : List (String × Route)) (path : String)
    (header : Option String) (body : Option String) (_hres : Bool) :
    Nat × Option (Nat × String) :=
  match routes.find? (fun pr => pr.1 == path) with
  | none => (404, none)
  | some pr =>
    if secretTruthy pr.2.secret_token && !(header == pr.2.secret_token) then
      (401, none)
    else
      match body with
      | none => (400, none)
      | some u => (200, some (pr.2.handler_id, u))

/-- `BotConfig` (src/app/bot_config.py): per-bot configuration whose
`secret_token` defaults to the empty string when no secret is set. -/
structure BotConfig where
  name : String
  token : String
  webhook_path : String
  manager_ids : List String
  secret_token : String := ""
deriving DecidableEq

/-! Wellformedness of a storage state, guaranteed by the storage layer:
session ids are primary keys (distinct and below the autoincrement
counter), and message_type only ever takes the two values the code writes
(every call site of `add_message_to_session` passes incoming or
outgoing). -/

/-- Session primary keys are distinct. -/
def SessionIdsNodup (st : ServiceState) : Prop :=
  (st.db.sessions.map SessionRec.session_id).Nodup

instance (st : ServiceState) : Decidable (SessionIdsNodup st) := by
  unfold SessionIdsNodup; infer_instance

/-- Session ids stay below the autoincrement counter. -/
def SessionIdsBounded (st : ServiceState) : Prop :=
  ∀ s ∈ st.db.sessions, s.session_id < st.db.next_session_id

instance (st : ServiceState) : Decidable (SessionIdsBounded st) := by
  unfold SessionIdsBounded; infer_instance

/-- Every Message row is incoming or outgoing. -/
def MessageTypesWF (st : ServiceState) : Prop :=
  ∀ m ∈ st.db.messages, m.message_type = "incoming" ∨ m.message_type = "outgoing"

instance (st : ServiceState) : Decidable (MessageTypesWF st) := by
  unfold MessageTypesWF; infer_instance

/-- Every routing-cache entry points at an open (waiting or active) session
of its own (bot_id, chat_id) key; maintained by `get_or_create_session`
(writes the open session it found or created), `accept_session` (keeps the
session open) and `close_session` (drops the key it closes). -/
def CacheConsistent (st : ServiceState) : Prop :=
  ∀ p ∈ st.active_sessions, ∃ s ∈ st.db.sessions,
    s.session_id = p.2 ∧ s.bot_id = p.1.1 ∧ s.chat_id = p.1.2 ∧
    (s.status = "waiting" ∨ s.status = "active")

instance (st : ServiceState) : Decidable (CacheConsistent st) := by
  unfold CacheConsistent; infer_instance

/-! Concrete fixtures used by witnesses and counterexamples. -/

/-- A session record with the given id, pair, manager, status and time. -/
def mkSession (sid : Nat) (bot chat : String) (mgr : Option String)
    (status : String) (t : Nat) : SessionRec :=
  { session_id := sid, bot_id := bot, chat_id := chat, manager_id := mgr,
    status := status, created_at := t, updated_at := t,
    messages_client := [], messages_ai := [] }

/-- One waiting session (id 1) for bot b, chat c; empty cache. -/
def stOneWaiting : ServiceState :=
  { db := { sessions := [mkSession 1 "b" "c" none "waiting" 0], messages := [],
            next_session_id := 2, next_message_id := 1, now := 1 },
    active_sessions := [] }

/-- One active session (id 1) for bot b, chat c, bound to manager M, with
its routing-cache entry present. -/
def stOneActive : ServiceState :=
  { db := { sessions := [mkSession 1 "b" "c" (some "M") "active" 0],
            messages := [], next_session_id := 2, next_message_id := 1,
            now := 5 },
    active_sessions := [(("b", "c"), 1)] }

/-- The bot under test: identity b with manager set M. -/
def theBot : TelegramBot := { bot_id := "b", manager_ids := ["M"] }

/-- The bot with an empty manager set. -/
def botNoManagers : TelegramBot := { bot_id := "b", manager_ids := [] }

/-- One active session for manager M plus a second waiting session, the
configuration from which the double accept proceeds. -/
def stActivePlusWaiting : ServiceState :=
  { db := { sessions := [mkSession 1 "b" "c1" (some "M") "active" 0,
                         mkSession 2 "b" "c2" none "waiting" 1],
            messages := [], next_session_id := 3, next_message_id := 1,
            now := 2 },
    active_sessions := [(("b", "c1"), 1), (("b", "c2"), 2)] }

/-- A Message row with the given id, session, type, sender, text, time. -/
def mkMessage (mid sid : Nat) (ty : String) (sender : Option String)
    (text : String) (t : Nat) : MessageRec :=
  { message_id := mid, session_id := sid, message_type := ty, sender := sender,
    text := text, telegram_message_id := none, status := "success",
    error_message := none, created_at := t }

/-- One active session for bot b, chat c, manager M, with two incoming and
one outgoing recorded messages and its routing-cache entry present. -/
def stActiveWithMsgs : ServiceState :=
  { db := { sessions := [mkSession 1 "b" "c" (some "M") "active" 0],
            messages := [mkMessage 1 1 "incoming" (some "user") "hi" 1,
                         mkMessage 2 1 "outgoing" (some "bot") "wait" 2,
                         mkMessage 3 1 "incoming" (some "user") "ok" 3],
            next_session_id := 2, next_message_id := 4, now := 4 },
    active_sessions := [(("b", "c"), 1)] }

/-- One closed session for the pair (b, c) whose cache entry was removed by
`close_session`: the configuration right after a close. -/
def stClosedOnly : ServiceState :=
  { db := { sessions := [mkSession 1 "b" "c" (some "M") "closed" 0],
            messages := [], next_session_id := 2, next_message_id := 1,
            now := 6 },
    active_sessions := [] }

/-- Two waiting sessions for bot b (chats c1 and c2, created at ticks 0 and
1): an ordinary backlog of two queued clients. -/
def stTwoWaiting : ServiceState :=
  { db := { sessions := [mkSession 1 "b" "c1" none "waiting" 0,
                         mkSession 2 "b" "c2" none "waiting" 1],
            messages := [], next_session_id := 3, next_message_id := 1,
            now := 2 },
    active_sessions := [] }

/-- A one-route table with a non-empty secret, for the C7 witness. -/
def routesSecret : List (String × Route) := [("/p", ⟨7, some "s"⟩)]

/-- A bot configuration that sets no secret, taking the dataclass default
empty string. -/
def cfgNoSecret : BotConfig :=
  { name := "bot1", token := "t", webhook_path := "/p", manager_ids := [] }

/-- The route table registered from `cfgNoSecret`. -/
def routesDefault : List (String × Route) :=
  [("/p", ⟨7, some cfgNoSecret.secret_token⟩)]

/-- The trace of attempted provider sends of a dispatcher flow (empty when
the flow raised). -/
def sentTrace : Except String (ServiceState × List SendRec) → List SendRec
  | .ok (_, tr) => tr
  | .error _ => []

/-- A list with at most one element containing `a` is exactly `[a]`. -/
theorem eq_singleton_of_length_le_one {α : Type} {l : List α} {a : α}
    (h : l.length ≤ 1) (ha : a ∈ l) : l = [a] := by
  match l, ha with
  | [x], ha => simp at ha; simp [ha]
  | x :: y :: t, _ => simp at h

/-- With distinct session ids, the primary-key `find?` returns any member
that carries the id. -/
theorem find_by_id_of_mem {l : List SessionRec}
    (hnd : (l.map SessionRec.session_id).Nodup) {s : SessionRec} (hs : s ∈ l)
    {sid : Nat} (hid : s.session_id = sid) :
    l.find? (fun t => t.session_id == sid) = some s := by
  induction l with
  | nil => cases hs
  | cons a tl ih =>
    rcases List.mem_cons.mp hs with h | h
    · subst h
      exact List.find?_cons_of_pos _ (by simp [hid])
    · have hmap : a.session_id ∉ tl.map SessionRec.session_id :=
        (List.nodup_cons.mp (by simpa using hnd)).1
      have hne : (a.session_id == sid) = false := by
        apply beq_eq_false_iff_ne.mpr
        intro heq
        exact hmap (heq ▸ hid ▸ List.mem_map_of_mem SessionRec.session_id h)
      rw [List.find?_cons_of_neg _ (by simp [hne])]
      exact ih (List.Nodup.of_cons (by simpa using hnd)) h


/-! Claim C1. -/

/-- C1: `accept_session(session_id, manager_id)` returns true, sets the
session's status to active and binds manager_id exactly when a session with
that id exists and its status is waiting at the time of the call; for a
non-existent or non-waiting session it returns false and leaves the state —
in particular the session's status, manager_id and updated_at — unchanged. -/
theorem accept_session_correct (st : ServiceState) (sid : Nat) (mgr : String)
    (hnd : SessionIdsNodup st) :
    ((SessionService.accept_session st sid mgr).1 = true ↔
      ∃ s ∈ st.db.sessions, s.session_id = sid ∧ s.status = "waiting") ∧
    ((SessionService.accept_session st sid mgr).1 = true →
      ∀ t ∈ (SessionService.accept_session st sid mgr).2.db.sessions,
        t.session_id = sid →
          t.status = "active" ∧ t.manager_id = some mgr ∧
          t.updated_at = st.db.now) ∧
    ((SessionService.accept_session st sid mgr).1 = false →
      (SessionService.accept_session st sid mgr).2 = st) := by
  cases hfind : st.db.sessions.find? (fun s => s.session_id == sid) with
  | none =>
    have hval : SessionService.accept_session st sid mgr = (false, st) := by
      unfold SessionService.accept_session
      rw [hfind]
    rw [hval]
    refine ⟨⟨fun h => by simp at h, ?_⟩, fun h => by simp at h, fun _ => rfl⟩
    rintro ⟨s, hs, h1, _⟩
    have := List.find?_eq_none.mp hfind s hs
    simp [h1] at this
  | some s =>
    have hsid : s.session_id = sid := by simpa using List.find?_some hfind
    have hmem : s ∈ st.db.sessions := List.mem_of_find?_eq_some hfind
    by_cases hstat : s.status = "waiting"
    · refine ⟨⟨fun _ => ⟨s, hmem, hsid, hstat⟩, fun _ => ?_⟩, fun _ t ht htid => ?_, fun h => ?_⟩
      · unfold SessionService.accept_session
        rw [hfind]
        simp [hstat]
      · unfold SessionService.accept_session at ht
        rw [hfind] at ht
        simp only [hstat] at ht
        simp only [show ("waiting" == "waiting") = true from rfl, if_true] at ht
        rcases List.mem_map.mp ht with ⟨a, ha, rfl⟩
        by_cases hais : a.session_id = sid
        · simp [hais]
        · have hne : (a.session_id == sid) = false := beq_eq_false_iff_ne.mpr hais
          rw [if_neg (by simp [hne])] at htid
          exact absurd htid hais
      · unfold SessionService.accept_session at h
        rw [hfind] at h
        simp [hstat] at h
    · have hbeq : (s.status == "waiting") = false := beq_eq_false_iff_ne.mpr hstat
      have hval : SessionService.accept_session st sid mgr = (false, st) := by
        unfold SessionService.accept_session
        rw [hfind]
        simp [hbeq]
      rw [hval]
      refine ⟨⟨fun h => by simp at h, ?_⟩, fun h => by simp at h, fun _ => rfl⟩
      rintro ⟨s', hs', h1, h2⟩
      have hf := find_by_id_of_mem hnd hs' h1
      rw [hfind] at hf
      injection hf with hf
      cases hf
      exact absurd h2 hstat

/-- C1 witness: a concrete waiting session is accepted. -/
theorem accept_session_correct_witness :
    (SessionService.accept_session stOneWaiting 1 "M").1 = true :=
  (accept_session_correct stOneWaiting 1 "M" (by decide)).1.mpr
    ⟨{ session_id := 1, bot_id := "b", chat_id := "c", manager_id := none,
       status := "waiting", created_at := 0, updated_at := 0,
       messages_client := [], messages_ai := [] }, by decide, rfl, rfl⟩

/-! Claim C2. -/

/-- C2 counterexample: the at-most-one-active-session-per-manager invariant
is violated in a state reachable from cold start by public operations alone:
two clients open sessions, then manager M accepts both (the accept prompts
the dispatcher leaves in the manager's chat are not withdrawn, and
`accept_session` never checks the acting manager's load).  After the four
operations the manager M holds two active sessions for bot b. -/
theorem manager_double_accept_reachable :
    countActiveFor (runOps initState
      [.getOrCreate "b" "c1", .getOrCreate "b" "c2",
       .accept 1 "M", .accept 2 "M"]) "b" "M" = 2 := by decide

/-- C2 amended: `accept_session` transitions any waiting session and binds
the manager regardless of the manager's existing active sessions, so when a
manager already holds an active session and accepts a further waiting
session of the same bot, the resulting state holds two distinct active
sessions bound to that manager — the claimed invariant is not enforced. -/
theorem accept_session_ignores_manager_load
    (st : ServiceState) (sid : Nat) (mgr : String) (s1 s2 : SessionRec)
    (hnd : SessionIdsNodup st)
    (h1 : s1 ∈ st.db.sessions) (h1a : s1.status = "active")
    (h1m : s1.manager_id = some mgr)
    (h2 : s2 ∈ st.db.sessions) (h2id : s2.session_id = sid)
    (h2w : s2.status = "waiting") (hbot : s1.bot_id = s2.bot_id) :
    (SessionService.accept_session st sid mgr).1 = true ∧
    ∃ t1 ∈ (SessionService.accept_session st sid mgr).2.db.sessions,
      ∃ t2 ∈ (SessionService.accept_session st sid mgr).2.db.sessions,
        t1.session_id ≠ t2.session_id ∧ t1.bot_id = t2.bot_id ∧
        t1.status = "active" ∧ t2.status = "active" ∧
        t1.manager_id = some mgr ∧ t2.manager_id = some mgr := by
  have hneid : s1.session_id ≠ sid := by
    intro h
    have heq : s1 = s2 :=
      List.inj_on_of_nodup_map hnd h1 h2 (by rw [h, h2id])
    rw [heq, h2w] at h1a
    exact absurd h1a (by decide)
  have hne1 : (s1.session_id == sid) = false := beq_eq_false_iff_ne.mpr hneid
  have hfind : st.db.sessions.find? (fun t => t.session_id == sid) = some s2 :=
    find_by_id_of_mem hnd h2 h2id
  have hsess : (SessionService.accept_session st sid mgr).2.db.sessions =
      st.db.sessions.map (fun t =>
        if t.session_id == sid then
          { t with status := "active", manager_id := some mgr,
                   updated_at := st.db.now }
        else t) := by
    unfold SessionService.accept_session
    rw [hfind]
    simp [h2w]
  refine ⟨?_, ?_⟩
  · unfold SessionService.accept_session
    rw [hfind]
    simp [h2w]
  · refine ⟨s1, ?_,
      { s2 with status := "active", manager_id := some mgr,
                updated_at := st.db.now }, ?_, ?_, ?_, h1a, rfl, h1m, rfl⟩
    · rw [hsess]
      have hm := List.mem_map_of_mem (fun t =>
        if t.session_id == sid then
          { t with status := "active", manager_id := some mgr,
                   updated_at := st.db.now }
        else t) h1
      simpa [hne1] using hm
    · rw [hsess]
      have hm := List.mem_map_of_mem (fun t =>
        if t.session_id == sid then
          { t with status := "active", manager_id := some mgr,
                   updated_at := st.db.now }
        else t) h2
      simpa [h2id] using hm
    · simp only []
      rw [h2id]
      exact hneid
    · exact hbot


/-- C2 amended witness: manager M, already holding active session 1,
successfully accepts waiting session 2. -/
theorem accept_session_ignores_manager_load_witness :
    (SessionService.accept_session stActivePlusWaiting 2 "M").1 = true :=
  (accept_session_ignores_manager_load stActivePlusWaiting 2 "M"
    (mkSession 1 "b" "c1" (some "M") "active" 0)
    (mkSession 2 "b" "c2" none "waiting" 1)
    (by decide) (by decide) (by decide) (by decide) (by decide) (by decide)
    (by decide) (by decide)).1

/-! Claim C3. -/


/-- C3: `close_session(session_id)` returns true exactly when the session is
active; then the session becomes closed, its client transcript snapshot has
as many entries as its recorded incoming messages and its manager transcript
snapshot as many as its outgoing messages, and the routing-cache entry for
the session's (bot_id, chat_id) key is removed; on a non-active session it
returns false and changes nothing. -/
theorem close_session_correct (st : ServiceState) (sid : Nat)
    (hnd : SessionIdsNodup st) (hty : MessageTypesWF st) :
    ((SessionService.close_session st sid).1 = true ↔
      ∃ s ∈ st.db.sessions, s.session_id = sid ∧ s.status = "active") ∧
    (∀ s ∈ st.db.sessions, s.session_id = sid → s.status = "active" →
      (∀ t ∈ (SessionService.close_session st sid).2.db.sessions,
        t.session_id = sid →
          t.status = "closed" ∧
          t.messages_client.length = (st.db.messages.filter (fun m =>
            m.session_id == sid && m.message_type == "incoming")).length ∧
          t.messages_ai.length = (st.db.messages.filter (fun m =>
            m.session_id == sid && m.message_type == "outgoing")).length) ∧
      cacheLookup (SessionService.close_session st sid).2.active_sessions
        s.bot_id s.chat_id = none) ∧
    ((SessionService.close_session st sid).1 = false →
      (SessionService.close_session st sid).2 = st) := by
  cases hfind : st.db.sessions.find? (fun s => s.session_id == sid) with
  | none =>
    have hval : SessionService.close_session st sid = (false, st) := by
      unfold SessionService.close_session
      rw [hfind]
    rw [hval]
    refine ⟨⟨fun h => by simp at h, ?_⟩, ?_, fun _ => rfl⟩
    · rintro ⟨s, hs, h1, _⟩
      have := List.find?_eq_none.mp hfind s hs
      simp [h1] at this
    · intro s hs hsid _
      have := List.find?_eq_none.mp hfind s hs
      simp [hsid] at this
  | some s =>
    have hsid : s.session_id = sid := by simpa using List.find?_some hfind
    have hmem : s ∈ st.db.sessions := List.mem_of_find?_eq_some hfind
    by_cases hstat : s.status = "active"
    · have hsess : (SessionService.close_session st sid).2.db.sessions =
          st.db.sessions.map (fun t =>
            if t.session_id == sid then
              { t with
                messages_client := ((st.db.messages.filter
                    (fun m => m.session_id == sid)).filter
                    (fun m => m.message_type == "incoming")).map
                    SessionService.toSnapshot,
                messages_ai := ((st.db.messages.filter
                    (fun m => m.session_id == sid)).filter
                    (fun m => !(m.message_type == "incoming"))).map
                    SessionService.toSnapshot,
                status := "closed", updated_at := st.db.now }
            else t) := by
        unfold SessionService.close_session
        rw [hfind]
        simp [hstat]
      have hcache : (SessionService.close_session st sid).2.active_sessions =
          st.active_sessions.filter (fun p =>
            !(p.1.1 == s.bot_id && p.1.2 == s.chat_id)) := by
        unfold SessionService.close_session
        rw [hfind]
        simp [hstat]
      refine ⟨⟨fun _ => ⟨s, hmem, hsid, hstat⟩, fun _ => ?_⟩, ?_, fun h => ?_⟩
      · unfold SessionService.close_session
        rw [hfind]
        simp [hstat]
      · intro s' hs' hs'id hs'act
        have hss' : s' = s := by
          have hf := find_by_id_of_mem hnd hs' hs'id
          rw [hfind] at hf
          injection hf with hf
          exact hf.symm
        subst hss'
        refine ⟨?_, ?_⟩
        · intro t ht htid
          rw [hsess] at ht
          rcases List.mem_map.mp ht with ⟨a, _, rfl⟩
          by_cases hais : a.session_id = sid
          · have hpos : (a.session_id == sid) = true := by simp [hais]
            rw [if_pos hpos] at htid ⊢
            refine ⟨rfl, ?_, ?_⟩
            · simp only [List.length_map, List.filter_filter]
              apply congrArg
              apply List.filter_congr
              intro m _
              exact Bool.and_comm _ _
            · simp only [List.length_map, List.filter_filter]
              apply congrArg
              apply List.filter_congr
              intro m hm
              rcases hty m hm with hin | hout
              · simp [hin]
              · simp [hout]
          · have hneg : (a.session_id == sid) = false := beq_eq_false_iff_ne.mpr hais
            rw [if_neg (by simp [hneg])] at htid
            exact absurd htid hais
        · rw [hcache]
          unfold cacheLookup
          rw [List.find?_eq_none.mpr]
          · rfl
          · intro p hp
            have := (List.mem_filter.mp hp).2
            simp only [Bool.not_eq_true'] at this
            simp [this]
      · unfold SessionService.close_session at h
        rw [hfind] at h
        simp [hstat] at h
    · have hbeq : (s.status == "active") = false := beq_eq_false_iff_ne.mpr hstat
      have hval : SessionService.close_session st sid = (false, st) := by
        unfold SessionService.close_session
        rw [hfind]
        simp [hbeq]
      rw [hval]
      refine ⟨⟨fun h => by simp at h, ?_⟩, ?_, fun _ => rfl⟩
      · rintro ⟨s', hs', h1, h2⟩
        have hf := find_by_id_of_mem hnd hs' h1
        rw [hfind] at hf
        injection hf with hf
        cases hf
        exact absurd h2 hstat
      · intro s' hs' h1 h2
        have hf := find_by_id_of_mem hnd hs' h1
        rw [hfind] at hf
        injection hf with hf
        cases hf
        exact absurd h2 hstat


/-- C3 witness: closing the concrete active session succeeds. -/
theorem close_session_correct_witness :
    (SessionService.close_session stActiveWithMsgs 1).1 = true :=
  (close_session_correct stActiveWithMsgs 1 (by decide) (by decide)).1.mpr
    ⟨mkSession 1 "b" "c" (some "M") "active" 0, by decide, rfl, rfl⟩

/-! Claim C4. -/

/-- C4: under a consistent routing cache and the at-most-one-open-session
invariant for the pair, `get_or_create_session(bot_id, chat_id)` returns the
session id of the open (waiting or active) session for the pair when one
exists, and otherwise creates a session with status waiting and returns its
id, which differs from every existing session id — in particular, after the
pair's session was closed (closed sessions are not open and closing removed
the cache entry), a new waiting session is created rather than the closed
one returned. -/
theorem get_or_create_session_correct (st : ServiceState) (bot chat : String)
    (hb : SessionIdsBounded st) (hcc : CacheConsistent st)
    (hone : (st.db.sessions.filter (isOpenRow bot chat)).length ≤ 1) :
    ∃ sid st',
      SessionService.get_or_create_session st bot chat = .ok (sid, st') ∧
      ((∃ s ∈ st.db.sessions, isOpenRow bot chat s = true ∧
          sid = s.session_id ∧ st'.db.sessions = st.db.sessions) ∨
       ((∀ s ∈ st.db.sessions, isOpenRow bot chat s = false) ∧
         sid = st.db.next_session_id ∧
         (∀ s ∈ st.db.sessions, s.session_id ≠ sid) ∧
         ∃ ns ∈ st'.db.sessions, ns.session_id = sid ∧ ns.status = "waiting" ∧
           ns.bot_id = bot ∧ ns.chat_id = chat)) := by
  cases hfind : st.active_sessions.find? (fun p => p.1.1 == bot && p.1.2 == chat) with
  | some p =>
    have hcl : cacheLookup st.active_sessions bot chat = some p.2 := by
      unfold cacheLookup
      rw [hfind]
      rfl
    have hval : SessionService.get_or_create_session st bot chat = .ok (p.2, st) := by
      unfold SessionService.get_or_create_session
      rw [hcl]
    obtain ⟨s, hsmem, hsid, hsbot, hschat, hsopen⟩ :=
      hcc p (List.mem_of_find?_eq_some hfind)
    have hpk := List.find?_some hfind
    rw [Bool.and_eq_true] at hpk
    refine ⟨p.2, st, hval, Or.inl ⟨s, hsmem, ?_, hsid.symm, rfl⟩⟩
    unfold isOpenRow
    have hb1 : (s.bot_id == bot) = true := by
      rw [hsbot]
      exact hpk.1
    have hb2 : (s.chat_id == chat) = true := by
      rw [hschat]
      exact hpk.2
    rcases hsopen with h | h <;> simp [hb1, hb2, h]
  | none =>
    have hcl : cacheLookup st.active_sessions bot chat = none := by
      unfold cacheLookup
      rw [hfind]
      rfl
    cases hfilter : st.db.sessions.filter (isOpenRow bot chat) with
    | nil =>
      refine ⟨st.db.next_session_id,
        { db := { st.db with
            sessions := st.db.sessions ++
              [⟨st.db.next_session_id, bot, chat, none, "waiting",
                st.db.now, st.db.now, [], []⟩],
            next_session_id := st.db.next_session_id + 1 },
          active_sessions :=
            ((bot, chat), st.db.next_session_id) :: st.active_sessions },
        ?_, Or.inr ⟨?_, rfl, ?_, ?_⟩⟩
      · unfold SessionService.get_or_create_session
        rw [hcl, hfilter]
        rfl
      · intro s hs
        have := List.filter_eq_nil_iff.mp hfilter s hs
        simpa using this
      · intro s hs
        exact Nat.ne_of_lt (hb s hs)
      · refine ⟨⟨st.db.next_session_id, bot, chat, none, "waiting",
          st.db.now, st.db.now, [], []⟩, ?_, rfl, rfl, rfl, rfl⟩
        exact List.mem_append_right _ (List.mem_singleton_self _)
    | cons s rest =>
      cases rest with
      | nil =>
        have hsmem : s ∈ st.db.sessions.filter (isOpenRow bot chat) := by
          rw [hfilter]
          exact List.mem_singleton_self _
        refine ⟨s.session_id,
          { st with active_sessions :=
              ((bot, chat), s.session_id) :: st.active_sessions },
          ?_, Or.inl ⟨s, (List.mem_filter.mp hsmem).1,
            (List.mem_filter.mp hsmem).2, rfl, rfl⟩⟩
        unfold SessionService.get_or_create_session
        rw [hcl, hfilter]
        rfl
      | cons b rest2 =>
        exfalso
        rw [hfilter] at hone
        simp at hone


/-- C4 witness: on the post-close state the call succeeds (and, per the main
theorem's right disjunct, creates a fresh waiting session). -/
theorem get_or_create_session_correct_witness :
    ∃ sid st',
      SessionService.get_or_create_session stClosedOnly "b" "c" =
        Except.ok (sid, st') := by
  obtain ⟨sid, st', heq, -⟩ :=
    get_or_create_session_correct stClosedOnly "b" "c" (by decide) (by decide)
      (by decide)
  exact ⟨sid, st', heq⟩

/-! Claim C5. -/


/-- C5: `get_next_waiting_session` uses `scalar_one_or_none()` on the
unbounded waiting-sessions query, so as soon as two sessions are waiting for
the bot the call raises MultipleResultsFound instead of returning the oldest
(contradicting its own docstring); with a single waiting session it does
return it. -/
theorem get_next_waiting_two_waiting_raises :
    SessionService.get_next_waiting_session stTwoWaiting "b" =
      Except.error "MultipleResultsFound" ∧
    SessionService.get_next_waiting_session stOneWaiting "b" =
      Except.ok (some (mkSession 1 "b" "c" none "waiting" 0)) := by
  constructor
  · rfl
  · rfl

/-! Claim C6. -/

/-- C6 counterexample: in the close flow, a successful run performs two
outbound sends (the close confirmation to the manager and the notice to the
client) yet inserts zero Message rows, and a provider failure on the first
of those sends is re-raised out of the flow — both contradicting the claim
that every dispatcher send inserts exactly one Message row and never
re-raises. -/
theorem close_flow_sends_without_message_rows :
    TelegramBot.close_manager_session theBot stOneActive "M" [] =
      Except.ok ((SessionService.close_session stOneActive 1).2,
        [⟨"M", "Сессия закрыта.", some Markup.removeKeyboard⟩,
         ⟨"c", "Сессия завершена менеджером.", none⟩]) ∧
    (SessionService.close_session stOneActive 1).2.db.messages = [] ∧
    TelegramBot.close_manager_session theBot stOneActive "M"
        [ProviderOutcome.httpError 500 "boom"] =
      Except.error "HTTP error: 500 - boom" := by
  refine ⟨rfl, rfl, rfl⟩

/-- C6 amended: sends performed through the `TelegramBot.send_message`
wrapper insert exactly one Message row whether the provider call succeeds or
fails — on failure with status failed and the error detail recorded — and
the wrapper never re-raises (with a supplied session id it always returns
ok); but the raw client sends the dispatcher also performs (manager
notifications and the close-flow confirmations) insert no Message row and
propagate the provider failure. -/
theorem send_message_records_exactly_one_row (bot : TelegramBot)
    (st : ServiceState) (sid : Nat) (chat msg : String) (mk : Option Markup)
    (sender : String) (db_text : Option String) (outcome : ProviderOutcome) :
    (∃ m,
      (TelegramBot.send_message_resolved st sid chat msg mk sender db_text
          outcome).2.1.db.messages = st.db.messages ++ [m] ∧
      m.message_type = "outgoing" ∧
      (providerFailureText outcome = none →
        m.status = "success" ∧ m.error_message = none) ∧
      (∀ e, providerFailureText outcome = some e →
        m.status = "failed" ∧ m.error_message = some e)) ∧
    (∃ out, TelegramBot.send_message bot st chat msg (some sid) mk sender
        db_text outcome = Except.ok out) ∧
    (∀ e, providerFailureText outcome = some e →
      clientSend outcome = Except.error e) := by
  refine ⟨?_, ⟨_, rfl⟩, ?_⟩
  · cases outcome with
    | success tmid =>
      refine ⟨_, rfl, rfl, fun _ => ⟨rfl, rfl⟩, fun e he => ?_⟩
      simp [providerFailureText] at he
    | httpError code body =>
      refine ⟨_, rfl, rfl, fun h => ?_, fun e he => ?_⟩
      · simp [providerFailureText] at h
      · simp only [providerFailureText, Option.some.injEq] at he
        subst he
        exact ⟨rfl, rfl⟩
    | transportError desc =>
      refine ⟨_, rfl, rfl, fun h => ?_, fun e he => ?_⟩
      · simp [providerFailureText] at h
      · simp only [providerFailureText, Option.some.injEq] at he
        subst he
        exact ⟨rfl, rfl⟩
  · intro e he
    cases outcome with
    | success tmid => simp [providerFailureText] at he
    | httpError code body =>
      simp only [providerFailureText, Option.some.injEq] at he
      subst he
      rfl
    | transportError desc =>
      simp only [providerFailureText, Option.some.injEq] at he
      subst he
      rfl

/-- C6 amended witness: a concrete failed wrapper send inserts exactly one
failed Message row carrying the error detail. -/
theorem send_message_records_exactly_one_row_witness :
    ∃ m,
      (TelegramBot.send_message_resolved stOneActive 1 "c" "hello" none "bot"
          none (ProviderOutcome.httpError 500 "boom")).2.1.db.messages =
        stOneActive.db.messages ++ [m] ∧
      m.message_type = "outgoing" ∧
      (providerFailureText (ProviderOutcome.httpError 500 "boom") = none →
        m.status = "success" ∧ m.error_message = none) ∧
      (∀ e, providerFailureText (ProviderOutcome.httpError 500 "boom") = some e →
        m.status = "failed" ∧ m.error_message = some e) :=
  (send_message_records_exactly_one_row theBot stOneActive 1 "c" "hello" none
    "bot" none (ProviderOutcome.httpError 500 "boom")).1

/-! Claim C7. -/

/-- C7: for every inbound POST, the response is 404 when no route matches
the path; else 401 when the route's secret is configured (truthy) and the
header does not equal it exactly; else 400 when the body is not parseable;
otherwise the update is handed to the matched route's handler and the
response is 200 — and the status code never depends on the handler's
outcome. -/
theorem do_POST_correct (routes : List (String × Route)) (path : String)
    (header : Option String) (body : Option String) (hres : Bool) :
    (routes.find? (fun q => q.1 == path) = none →
      do_POST routes path header body hres = (404, none)) ∧
    (∀ pr, routes.find? (fun q => q.1 == path) = some pr →
      (secretTruthy pr.2.secret_token = true → header ≠ pr.2.secret_token →
        do_POST routes path header body hres = (401, none)) ∧
      ((secretTruthy pr.2.secret_token = false ∨ header = pr.2.secret_token) →
        (body = none → do_POST routes path header body hres = (400, none)) ∧
        (∀ u, body = some u →
          do_POST routes path header body hres =
            (200, some (pr.2.handler_id, u))))) ∧
    (∀ r1 r2 : Bool,
      (do_POST routes path header body r1).1 =
        (do_POST routes path header body r2).1) := by
  refine ⟨?_, ?_, fun r1 r2 => rfl⟩
  · intro h
    unfold do_POST
    rw [h]
  · intro pr hfind
    constructor
    · intro hsec hne
      have hcond :
          (secretTruthy pr.2.secret_token && !(header == pr.2.secret_token)) = true := by
        rw [hsec]
        simp [hne]
      unfold do_POST
      rw [hfind]
      simp [hcond]
    · intro hpass
      have hcond :
          (secretTruthy pr.2.secret_token && !(header == pr.2.secret_token)) = false := by
        rcases hpass with h | h
        · simp [h]
        · simp [h]
      refine ⟨fun hb => ?_, fun u hb => ?_⟩
      · unfold do_POST
        rw [hfind]
        simp [hcond, hb]
      · unfold do_POST
        rw [hfind]
        simp [hcond, hb]


/-- C7 witness: with the matching path, the exact secret header and a
parseable body, the concrete request is answered 200 and handed off. -/
theorem do_POST_correct_witness :
    do_POST routesSecret "/p" (some "s") (some "u") true =
      (200, some (7, "u")) :=
  (((do_POST_correct routesSecret "/p" (some "s") (some "u") true).2.1
    ("/p", ⟨7, some "s"⟩) (by decide)).2 (Or.inr rfl)).2 "u" rfl

/-! Claim C10. -/

/-- C10: for a route registered with the empty-string secret (the
`BotConfig` default when no secret is set), the webhook response is
completely independent of the X-Telegram-Bot-Api-Secret-Token header: the
truthiness guard skips authentication, so any two header values yield the
identical response. -/
theorem empty_secret_ignores_header (routes : List (String × Route))
    (path : String) (body : Option String) (hres : Bool)
    (pr : String × Route) (h1 h2 : Option String)
    (hfind : routes.find? (fun q => q.1 == path) = some pr)
    (hsec : pr.2.secret_token = some "") :
    do_POST routes path h1 body hres = do_POST routes path h2 body hres := by
  have hfalse : secretTruthy pr.2.secret_token = false := by
    rw [hsec]
    rfl
  unfold do_POST
  rw [hfind]
  simp [hfalse]



/-- C10 witness: with the default empty secret, a wrong header and a missing
header receive the identical response. -/
theorem empty_secret_ignores_header_witness :
    do_POST routesDefault "/p" (some "wrong") (some "u") true =
      do_POST routesDefault "/p" none (some "u") true :=
  empty_secret_ignores_header routesDefault "/p" (some "u") true
    ("/p", ⟨7, some cfgNoSecret.secret_token⟩) (some "wrong") none
    (by decide) (by decide)

/-! Claim C8. -/


/-- C8 counterexample: manager M (first name Bob) with active session 1
sends "hello"; the text delivered to the session's client chat is
"[Bob]: hello", not the manager's text verbatim — no send in the flow
carries the bare text "hello". -/
theorem manager_forward_not_verbatim :
    sentTrace (TelegramBot.handle_manager_message theBot stOneActive "M"
        "hello" ⟨"Bob", "", "bob"⟩ none []) =
      [⟨"c", "[Bob]: hello", none⟩] ∧
    ∀ r ∈ sentTrace (TelegramBot.handle_manager_message theBot stOneActive
        "M" "hello" ⟨"Bob", "", "bob"⟩ none []), r.text ≠ "hello" := by
  refine ⟨rfl, by decide⟩

/-- A non-empty string prefixed with bot- is never the bare sender bot. -/
theorem bot_prefixed_ne_bot (u : String) : ("bot-" ++ u) ≠ "bot" := by
  intro h
  have hl := congrArg String.length h
  rw [String.length_append] at hl
  have h4 : ("bot-" : String).length = 4 := by decide
  have h3 : ("bot" : String).length = 3 := by decide
  omega

/-- C8 amended: for a manager text that is not a close command, the text
sent to the session's client chat is the manager's text prefixed with
"[display name]: " (not verbatim), while the recorded Message row does carry
the manager's original text verbatim, has type outgoing, and a sender tag
derived from the manager's username (bot-username, or bot-manager without
one) — never the generic bot sender. -/
theorem manager_forward_prefixed_and_recorded (bot : TelegramBot)
    (st : ServiceState) (mgr text : String) (info : TelegramBot.UserInfo)
    (mid : Option String) (outs : List ProviderOutcome) (s : SessionRec)
    (hq : SessionService.get_active_session_by_manager_id st bot.bot_id mgr =
      .ok (some s))
    (hc1 : text ≠ "/close") (hc2 : text ≠ "Завершить диалог")
    (ht : text ≠ "") :
    ∃ st', TelegramBot.handle_manager_message bot st mgr text info mid outs =
      Except.ok (st',
        [⟨s.chat_id,
          "[" ++ (if info.first_name == "" then "Manager" else info.first_name)
            ++ "]: " ++ text, none⟩]) ∧
      ∃ m, st'.db.messages = st.db.messages ++ [m] ∧
        m.message_type = "outgoing" ∧ m.text = text ∧
        m.sender = some (if info.username == "" then "bot-manager"
          else "bot-" ++ info.username) ∧
        m.sender ≠ some "bot" := by
  have hcb : (text == "/close" || text == "Завершить диалог") = false := by
    simp [hc1, hc2]
  have hbt : (text == "") = false := beq_eq_false_iff_ne.mpr ht
  have hval : TelegramBot.handle_manager_message bot st mgr text info mid outs =
      Except.ok ((TelegramBot.send_message_resolved st s.session_id s.chat_id
          ("[" ++ (if info.first_name == "" then "Manager" else info.first_name)
            ++ "]: " ++ text) none
          (if info.username == "" then "bot-manager" else "bot-" ++ info.username)
          (some text) (popOutcome outs).1).2.1,
        (TelegramBot.send_message_resolved st s.session_id s.chat_id
          ("[" ++ (if info.first_name == "" then "Manager" else info.first_name)
            ++ "]: " ++ text) none
          (if info.username == "" then "bot-manager" else "bot-" ++ info.username)
          (some text) (popOutcome outs).1).2.2) := by
    unfold TelegramBot.handle_manager_message
    rw [hcb]
    simp only [Bool.false_eq_true, if_false]
    rw [hq]
  have hsender : (some (if info.username == "" then "bot-manager"
      else "bot-" ++ info.username) : Option String) ≠ some "bot" := by
    by_cases hu : (info.username == "") = true
    · rw [if_pos hu]
      intro h
      injection h with h
      exact absurd h (by decide)
    · rw [if_neg hu]
      intro h
      injection h with h
      exact bot_prefixed_ne_bot info.username h
  cases ho : (popOutcome outs).1 with
  | success tmid =>
    rw [ho] at hval
    exact ⟨_, hval, _, rfl, rfl, by simp [hbt], rfl, hsender⟩
  | httpError code body =>
    rw [ho] at hval
    exact ⟨_, hval, _, rfl, rfl, by simp [hbt], rfl, hsender⟩
  | transportError desc =>
    rw [ho] at hval
    exact ⟨_, hval, _, rfl, rfl, by simp [hbt], rfl, hsender⟩

/-- C8 amended witness: the concrete forward prompts the client chat with
the prefixed text. -/
theorem manager_forward_prefixed_and_recorded_witness :
    ∃ st', TelegramBot.handle_manager_message theBot stOneActive "M" "hi"
        ⟨"Bob", "", "bob"⟩ none [] =
      Except.ok (st', [⟨"c", "[Bob]: hi", none⟩]) := by
  obtain ⟨st', heq, -⟩ :=
    manager_forward_prefixed_and_recorded theBot stOneActive "M" "hi"
      ⟨"Bob", "", "bob"⟩ none []
      (mkSession 1 "b" "c" (some "M") "active" 0)
      rfl (by decide) (by decide) (by decide)
  exact ⟨st', heq⟩

/-! Claim C9. -/

/-- C9 counterexample: with zero free managers, the client-facing message of
the start flow is the generic "Ожидайте менеджера..." wait text — the same
text the client receives when a free manager exists — so no message saying
no manager is available is sent; the difference between the two runs is only
the accept-prompt to the manager. -/
theorem client_start_no_unavailable_notice :
    sentTrace (TelegramBot.handle_client_start botNoManagers initState "c"
        ⟨"Ann", "", "ann"⟩ 0 []) =
      [⟨"c", "Ожидайте менеджера...", none⟩] ∧
    sentTrace (TelegramBot.handle_client_start theBot initState "c"
        ⟨"Ann", "", "ann"⟩ 0 []) =
      [⟨"M", "Есть новый клиент: Ann (@ann)", some (Markup.acceptButton 1)⟩,
       ⟨"c", "Ожидайте менеджера...", none⟩] := by
  refine ⟨rfl, rfl⟩

/-- Appending a non-active session leaves the free-manager computation
unchanged. -/
theorem get_free_managers_eq_of_sessions (st st' : ServiceState)
    (bot : String) (ids : List String) (ns : SessionRec)
    (hsess : st'.db.sessions = st.db.sessions ++ [ns])
    (hns : ns.status ≠ "active") :
    SessionService.get_free_managers st' bot ids =
      SessionService.get_free_managers st bot ids := by
  unfold SessionService.get_free_managers
  rw [hsess]
  have hb : (ns.status == "active") = false := beq_eq_false_iff_ne.mpr hns
  simp [List.any_append, hb]

/-- The session table after a wrapper send: only the owning session's
updated_at is bumped, whatever the provider outcome. -/
theorem send_message_resolved_sessions (st : ServiceState) (sid : Nat)
    (chat msg : String) (mk : Option Markup) (sender : String)
    (db_text : Option String) (outcome : ProviderOutcome) :
    (TelegramBot.send_message_resolved st sid chat msg mk sender db_text
        outcome).2.1.db.sessions =
      st.db.sessions.map (fun t =>
        if t.session_id == sid then { t with updated_at := st.db.now } else t) := by
  cases outcome <;> rfl

/-- C9 amended: a client start with no open session, a consistent cache and
an empty free-manager list still creates a waiting session for the pair, and
performs exactly one send — to the client, without any accept markup — whose
text is the same generic "Ожидайте менеджера..." wait message used when a
manager is free; no distinct no-manager-available notice exists in this
flow. -/
theorem client_start_empty_free_waits_generic (bot : TelegramBot)
    (st : ServiceState) (chat : String) (info : TelegramBot.UserInfo)
    (pick : Nat) (outs : List ProviderOutcome)
    (hopen : SessionService.get_active_session_by_chat_id st bot.bot_id chat =
      .ok none)
    (hcc : CacheConsistent st)
    (hfree : SessionService.get_free_managers st bot.bot_id bot.manager_ids = []) :
    ∃ st', TelegramBot.handle_client_start bot st chat info pick outs =
      Except.ok (st', [⟨chat, "Ожидайте менеджера...", none⟩]) ∧
      ∃ ns ∈ st'.db.sessions, ns.session_id = st.db.next_session_id ∧
        ns.status = "waiting" ∧ ns.bot_id = bot.bot_id ∧ ns.chat_id = chat := by
  have hfilter : st.db.sessions.filter (isOpenRow bot.bot_id chat) = [] := by
    unfold SessionService.get_active_session_by_chat_id at hopen
    cases hf : st.db.sessions.filter (isOpenRow bot.bot_id chat) with
    | nil => rfl
    | cons a t =>
      rw [hf] at hopen
      cases t with
      | nil => exact absurd hopen (by simp [scalar_one_or_none])
      | cons b t2 => exact absurd hopen (by simp [scalar_one_or_none])
  have hnofind : st.active_sessions.find?
      (fun p => p.1.1 == bot.bot_id && p.1.2 == chat) = none := by
    apply List.find?_eq_none.mpr
    intro p hp hpred
    obtain ⟨s, hsmem, _, hsb, hsc, hsop⟩ := hcc p hp
    rw [Bool.and_eq_true] at hpred
    have hrow : isOpenRow bot.bot_id chat s = true := by
      unfold isOpenRow
      have e1 : (s.bot_id == bot.bot_id) = true := by
        rw [hsb]
        exact hpred.1
      have e2 : (s.chat_id == chat) = true := by
        rw [hsc]
        exact hpred.2
      rcases hsop with h | h <;> simp [e1, e2, h]
    have hin : s ∈ st.db.sessions.filter (isOpenRow bot.bot_id chat) :=
      List.mem_filter.mpr ⟨hsmem, hrow⟩
    rw [hfilter] at hin
    cases hin
  have hcl : cacheLookup st.active_sessions bot.bot_id chat = none := by
    unfold cacheLookup
    rw [hnofind]
    rfl
  have hval : SessionService.get_or_create_session st bot.bot_id chat =
      .ok (st.db.next_session_id,
        { db := { st.db with
            sessions := st.db.sessions ++
              [⟨st.db.next_session_id, bot.bot_id, chat, none, "waiting",
                st.db.now, st.db.now, [], []⟩],
            next_session_id := st.db.next_session_id + 1 },
          active_sessions :=
            ((bot.bot_id, chat), st.db.next_session_id) :: st.active_sessions }) := by
    unfold SessionService.get_or_create_session
    rw [hcl, hfilter]
    rfl
  obtain ⟨st1, hval1, hsess1⟩ :
      ∃ st1, SessionService.get_or_create_session st bot.bot_id chat =
          .ok (st.db.next_session_id, st1) ∧
        st1.db.sessions = st.db.sessions ++
          [⟨st.db.next_session_id, bot.bot_id, chat, none, "waiting",
            st.db.now, st.db.now, [], []⟩] :=
    ⟨_, hval, rfl⟩
  have e1 : TelegramBot.handle_client_start bot st chat info pick outs =
      TelegramBot.handle_client_start_opened bot st.db.next_session_id st1
        chat info pick outs := by
    unfold TelegramBot.handle_client_start
    rw [hopen, hval1]
  have hfree1 : SessionService.get_free_managers st1 bot.bot_id
      bot.manager_ids = [] := by
    rw [get_free_managers_eq_of_sessions st st1 bot.bot_id bot.manager_ids
      ⟨st.db.next_session_id, bot.bot_id, chat, none, "waiting",
        st.db.now, st.db.now, [], []⟩ hsess1 (by simp)]
    exact hfree
  rcases hpo : popOutcome outs with ⟨o, rest⟩
  have e2 : TelegramBot.handle_client_start_opened bot st.db.next_session_id
      st1 chat info pick outs =
      Except.ok ((TelegramBot.send_message_resolved st1 st.db.next_session_id
          chat "Ожидайте менеджера..." none "bot" none o).2.1,
        (TelegramBot.send_message_resolved st1 st.db.next_session_id
          chat "Ожидайте менеджера..." none "bot" none o).2.2) := by
    unfold TelegramBot.handle_client_start_opened
    rw [hfree1, hpo]
    rfl
  have hbid : (st.db.next_session_id == st.db.next_session_id) = true := by
    simp
  cases o with
  | success tmid =>
    refine ⟨_, e1.trans e2, ?_⟩
    rw [send_message_resolved_sessions, hsess1]
    refine ⟨_, List.mem_map_of_mem _
      (List.mem_append_right _ (List.mem_singleton_self _)), ?_, ?_, ?_, ?_⟩
    all_goals simp [hbid]
  | httpError code body =>
    refine ⟨_, e1.trans e2, ?_⟩
    rw [send_message_resolved_sessions, hsess1]
    refine ⟨_, List.mem_map_of_mem _
      (List.mem_append_right _ (List.mem_singleton_self _)), ?_, ?_, ?_, ?_⟩
    all_goals simp [hbid]
  | transportError desc =>
    refine ⟨_, e1.trans e2, ?_⟩
    rw [send_message_resolved_sessions, hsess1]
    refine ⟨_, List.mem_map_of_mem _
      (List.mem_append_right _ (List.mem_singleton_self _)), ?_, ?_, ?_, ?_⟩
    all_goals simp [hbid]


/-- C9 amended witness: on the cold state with an empty manager pool the
start flow creates the waiting session and sends only the generic wait
text. -/
theorem client_start_empty_free_waits_generic_witness :
    ∃ st', TelegramBot.handle_client_start botNoManagers initState "c"
        ⟨"Ann", "", "ann"⟩ 0 [] =
      Except.ok (st', [⟨"c", "Ожидайте менеджера...", none⟩]) := by
  obtain ⟨st', heq, -⟩ :=
    client_start_empty_free_waits_generic botNoManagers initState "c"
      ⟨"Ann", "", "ann"⟩ 0 [] rfl (by decide) rfl
  exact ⟨st', heq⟩

end TelegramThingie
